import Mathlib

/-!
Shallow embedding of `src/app.py` (a FastAPI proxy for the OpenDota API):
Python values, the in-memory TTL cache, the two normalizers
`normalize_live` / `normalize_pro`, the cache-key construction of the live
endpoint, and the two request handlers `dota_live` / `dota_recent`.
Time is modelled by rationals, JSON/Python values by an inductive type.
-/

/-- A Python/JSON value as it appears in this program: `None`, booleans,
integers, strings, lists and (string-keyed) dicts. -/
inductive PyVal where
  | none : PyVal
  | bool : Bool → PyVal
  | int : Int → PyVal
  | str : String → PyVal
  | list : List PyVal → PyVal
  | dict : List (String × PyVal) → PyVal
deriving Repr

/-- Python truthiness: `None`, `False`, `0`, `""`, `[]`, `{}` are falsy. -/
def truthy : PyVal → Bool
  | .none => false
  | .bool b => b
  | .int n => n ≠ 0
  | .str s => s ≠ ""
  | .list xs => !xs.isEmpty
  | .dict kvs => !kvs.isEmpty

mutual
/-- Python `repr` of a value (string escaping approximated). -/
def pyRepr : PyVal → String
  | .none => "None"
  | .bool b => if b then "True" else "False"
  | .int n => toString n
  | .str s => "'" ++ s ++ "'"
  | .list xs => "[" ++ pyReprList xs ++ "]"
  | .dict kvs => "\x7b" ++ pyReprDict kvs ++ "\x7d"

def pyReprList : List PyVal → String
  | [] => ""
  | [x] => pyRepr x
  | x :: y :: xs => pyRepr x ++ ", " ++ pyReprList (y :: xs)

def pyReprDict : List (String × PyVal) → String
  | [] => ""
  | [kv] => "'" ++ kv.1 ++ "': " ++ pyRepr kv.2
  | kv :: kv2 :: kvs => "'" ++ kv.1 ++ "': " ++ pyRepr kv.2 ++ ", " ++ pyReprDict (kv2 :: kvs)
end

/-- Python `str()` of a value, as used by f-string interpolation. -/
def pyStr : PyVal → String
  | .none => "None"
  | .bool b => if b then "True" else "False"
  | .int n => toString n
  | .str s => s
  | .list xs => pyRepr (.list xs)
  | .dict kvs => pyRepr (.dict kvs)

/-- Lookup in a dict: the value stored under `k`, if the key is present. -/
def dictLookup (m : List (String × PyVal)) (k : String) : Option PyVal :=
  match m with
  | [] => Option.none
  | kv :: rest => if kv.1 = k then some kv.2 else dictLookup rest k

/-- Python `m.get(k, d)`: the stored value when the key is present
(even when that value is `None`), else the default `d`. -/
def dictGetD (m : List (String × PyVal)) (k : String) (d : PyVal) : PyVal :=
  match dictLookup m k with
  | some v => v
  | Option.none => d

/-- Python `m.get(k)` (default `None`). -/
def dictGet (m : List (String × PyVal)) (k : String) : PyVal :=
  dictGetD m k .none

/-- Python `x or y`: `x` when truthy, else `y`. -/
def pyOr (x y : PyVal) : PyVal :=
  if truthy x then x else y

/-- Python `len(v)`: defined for strings, lists and dicts; raises
`TypeError` (modelled as absence) on `None`, booleans and numbers. -/
def pyLen : PyVal → Option Nat
  | .str s => some s.length
  | .list xs => some xs.length
  | .dict kvs => some kvs.length
  | _ => Option.none

/-- Values accepted by Python `max(·, 0)` as integers (`bool` is an int
subtype); other truthy values make the comparison raise `TypeError`. -/
def pyIntCoerce : PyVal → Option Int
  | .int n => some n
  | .bool b => some (if b then 1 else 0)
  | _ => Option.none

/-- The status string of `normalize_live` (`src/app.py` line 46): when
`game_time` is truthy, `f"Live â€¢ {max(game_time,0)//60}m"` (the bullet
is mojibake in the source file: bytes C3 A2 E2 82 AC C2 A2, i.e. the
three characters U+00E2 U+20AC U+00A2), else `"Live"`.  `max` against an
`int` raises on non-numeric truthy values, modelled as `Option.none`. -/
def liveStatus (game_time : PyVal) : Option String :=
  if truthy game_time then
    (pyIntCoerce game_time).map
      (fun n => "Live â€¢ " ++ toString (max n 0 / 60) ++ "m")
  else some "Live"

/-- The fixed output shape produced for each record by both normalizers. -/
structure NormItem where
  id : PyVal
  game : String
  league : PyVal
  series : String
  team1 : PyVal
  team2 : PyVal
  status : String
  score : String
  begin_at : PyVal
  raw : PyVal
deriving Repr

/-- The score line `f"{m.get('radiant_score', 0)} - {m.get('dire_score', 0)}"`
shared verbatim by both normalizers (lines 44 and 67). -/
def scoreOf (m : List (String × PyVal)) : String :=
  pyStr (dictGetD m "radiant_score" (.int 0)) ++ " - " ++
    pyStr (dictGetD m "dire_score" (.int 0))

/-- One loop iteration of `normalize_live` (lines 41-58); fails exactly
when the status computation raises. -/
def normalizeLiveItem (m : List (String × PyVal)) : Option NormItem :=
  (liveStatus (dictGetD m "game_time" (.int 0))).map (fun st =>
    { id := dictGet m "match_id"
      game := "Dota 2"
      league := pyOr (dictGet m "league_name") (.str "")
      series := ""
      team1 := pyOr (dictGet m "team_name_radiant") (.str "Radiant")
      team2 := pyOr (dictGet m "team_name_dire") (.str "Dire")
      status := st
      score := scoreOf m
      begin_at := .none
      raw := .dict m })

/-- One loop iteration of `normalize_pro` (lines 65-79); total. -/
def normalizeProItem (m : List (String × PyVal)) : NormItem :=
  { id := dictGet m "match_id"
    game := "Dota 2"
    league := pyOr (dictGet m "league_name") (.str "")
    series := ""
    team1 := pyOr (dictGet m "radiant_name") (.str "Radiant")
    team2 := pyOr (dictGet m "dire_name") (.str "Dire")
    status := "Finished"
    score := scoreOf m
    begin_at := .none
    raw := .dict m }

/-- Element access: `m.get(...)` on a non-dict raises; a dict yields its pairs. -/
def asDict : PyVal → Option (List (String × PyVal))
  | .dict kvs => some kvs
  | _ => Option.none

/-- Run a fallible step over each element of a list, aborting at the
first failure (the Python loop with exception propagation). -/
def optMap {α β : Type} (f : α → Option β) : List α → Option (List β)
  | [] => some []
  | x :: xs =>
    match f x with
    | Option.none => Option.none
    | some y => (optMap f xs).map (fun ys => y :: ys)

/-- Embedding of `normalize_live(rows)` (lines 37-59): non-lists give
`[]`; the loop raises (modelled as `Option.none`) on a non-dict element
or a bad status value. -/
def normalize_live (rows : PyVal) : Option (List NormItem) :=
  match rows with
  | .list xs => optMap (fun x => (asDict x).bind normalizeLiveItem) xs
  | _ => some []

/-- Embedding of `normalize_pro(rows)` (lines 61-80): non-lists give
`[]`; the loop runs over `rows[:20]`, raising only on a non-dict. -/
def normalize_pro (rows : PyVal) : Option (List NormItem) :=
  match rows with
  | .list xs => optMap (fun x => (asDict x).map normalizeProItem) (xs.take 20)
  | _ => some []

/-- An entry of the module-level cache dict: `{"data": ..., "exp": ...}`
(line 35).  Time is modelled by rationals. -/
structure CEntry (α : Type) where
  data : α
  exp : ℚ
deriving Repr

/-- The process-wide cache `_cache`, a string-keyed map modelled as an
association list where the most recent write for a key comes first. -/
def Cache (α : Type) : Type := List (String × CEntry α)

/-- Lookup of the most recently written entry for a key (`_cache.get(k)`). -/
def cacheLookup {α : Type} (c : Cache α) (k : String) : Option (CEntry α) :=
  match c with
  | [] => Option.none
  | kv :: rest => if kv.1 = k then some kv.2 else cacheLookup rest k

/-- Embedding of `cache_get` (lines 28-32), with the current clock passed
explicitly: absent key, or `v["exp"] < time.time()`, give `None`; else the
stored `v["data"]`.  (The `not v` test is absorbed into absence: a present
entry is a two-key dict, hence always truthy.) -/
def cache_get {α : Type} (c : Cache α) (k : String) (now : ℚ) : Option α :=
  match cacheLookup c k with
  | Option.none => Option.none
  | some v => if v.exp < now then Option.none else some v.data

/-- Embedding of `cache_set` (lines 34-35): unconditionally (re)binds the
key to `{"data": data, "exp": time.time() + ttl}`. -/
def cache_set {α : Type} (c : Cache α) (k : String) (data : α) (now ttl : ℚ) :
    Cache α :=
  (k, ⟨data, now + ttl⟩) :: c

/-- Default ttl `CACHE_SECONDS = 10` (line 26). -/
def CACHE_SECONDS : ℚ := 10

/-- Upstream URL constants (lines 12-13). -/
def OPENDOTA_LIVE : String := "https://api.opendota.com/api/live"

def OPENDOTA_PRO : String := "https://api.opendota.com/api/proMatches"

/-- Hex digit used by percent-encoding (uppercase, as in CPython). -/
def hexDigit (n : Nat) : Char :=
  if n < 10 then Char.ofNat (48 + n) else Char.ofNat (55 + n)

/-- UTF-8 encoding of one code point, as a list of byte values. -/
def utf8Bytes (n : Nat) : List Nat :=
  if n < 128 then [n]
  else if n < 2048 then
    [192 + n / 64, 128 + n % 64]
  else if n < 65536 then
    [224 + n / 4096, 128 + n / 64 % 64, 128 + n % 64]
  else
    [240 + n / 262144, 128 + n / 4096 % 64, 128 + n / 64 % 64, 128 + n % 64]

/-- Percent-encoding of one byte by `urllib.parse.quote_plus`: ASCII
letters, digits, `_.-~` kept, space becomes `+`, all else `%XX`. -/
def quoteByte (n : Nat) : String :=
  if (65 ≤ n ∧ n ≤ 90) ∨ (97 ≤ n ∧ n ≤ 122) ∨ (48 ≤ n ∧ n ≤ 57) ∨
      n = 95 ∨ n = 46 ∨ n = 45 ∨ n = 126 then
    String.singleton (Char.ofNat n)
  else if n = 32 then "+"
  else "%" ++ String.singleton (hexDigit (n / 16)) ++
    String.singleton (hexDigit (n % 16))

/-- Embedding of `urllib.parse.quote_plus` on a string: UTF-8 encode,
then percent-encode byte by byte. -/
def quote_plus (s : String) : String :=
  String.join ((s.data.flatMap (fun c => utf8Bytes c.toNat)).map quoteByte)

/-- Embedding of `urlencode(params, doseq=True)` for string-valued
parameters: `quote_plus(k)=quote_plus(v)` pairs joined by `&`. -/
def urlencode (params : List (String × String)) : String :=
  String.intercalate "&"
    (params.map (fun kv => quote_plus kv.1 ++ "=" ++ quote_plus kv.2))

/-- The live endpoint's upstream URL and cache key (lines 84-86):
`OPENDOTA_LIVE` plus `?`-prefixed re-encoded query string when nonempty. -/
def liveKey (params : List (String × String)) : String :=
  let qs := urlencode params
  OPENDOTA_LIVE ++ (if qs = "" then "" else "?" ++ qs)

/-- The upstream HTTP response as seen by a handler: status code and the
JSON-parsed body. -/
structure Resp where
  status : Nat
  body : PyVal
deriving Repr

/-- The `{"count": ..., "items": ...}` payload built on lines 98/114. -/
structure Payload where
  count : Nat
  items : List NormItem
deriving Repr

/-- Outcome of one handler invocation: a JSON response (with its
`fromCache` flag), a raised `HTTPException`, or an uncaught Python
exception (surfaced by the framework as a 500). -/
inductive HandlerResult where
  | ok : Bool → Payload → HandlerResult
  | httpError : Nat → String → HandlerResult
  | pyError : HandlerResult
deriving Repr

/-- Embedding of the handler `dota_live` (lines 82-100).  The inbound
query parameters and the response the upstream would give are inputs; the
result is the handler outcome together with the cache left behind. -/
def dota_live (c : Cache Payload) (now : ℚ) (params : List (String × String))
    (resp : Resp) : HandlerResult × Cache Payload :=
  let url := liveKey params
  match cache_get c url now with
  | some p => (.ok true p, c)
  | Option.none =>
    if resp.status ≠ 200 then
      (.httpError 502 ("OpenDota upstream error " ++ toString resp.status), c)
    else
      match pyLen resp.body with
      | Option.none => (.pyError, c)
      | some n =>
        match normalize_live resp.body with
        | Option.none => (.pyError, c)
        | some items =>
          let payload : Payload := ⟨n, items⟩
          (.ok false payload, cache_set c url payload now CACHE_SECONDS)

/-- Embedding of the handler `dota_recent` (lines 102-116): fixed key
`OPENDOTA_PRO`, ttl 30, `normalize_pro`. -/
def dota_recent (c : Cache Payload) (now : ℚ) (resp : Resp) :
    HandlerResult × Cache Payload :=
  match cache_get c OPENDOTA_PRO now with
  | some p => (.ok true p, c)
  | Option.none =>
    if resp.status ≠ 200 then
      (.httpError 502 ("OpenDota upstream error " ++ toString resp.status), c)
    else
      match pyLen resp.body with
      | Option.none => (.pyError, c)
      | some n =>
        match normalize_pro resp.body with
        | Option.none => (.pyError, c)
        | some items =>
          let payload : Payload := ⟨n, items⟩
          (.ok false payload, cache_set c OPENDOTA_PRO payload now 30)

/-- The sample record of the spec's testable property for `normalize_live`. -/
def liveSample : List (String × PyVal) :=
  [("match_id", .int 1), ("radiant_score", .int 3),
   ("dire_score", .int 5), ("game_time", .int 125)]

/-- Helper: a fallible loop that succeeds returns one output per input. -/
theorem optMap_length {α β : Type} (f : α → Option β) (l : List α) :
    ∀ l', optMap f l = some l' → l'.length = l.length := by
  induction l with
  | nil =>
    intro l' h
    simp only [optMap, Option.some.injEq] at h
    simp [← h]
  | cons x xs ih =>
    intro l' h
    simp only [optMap] at h
    cases hx : f x with
    | none => simp [hx] at h
    | some y =>
      simp only [hx] at h
      cases hxs : optMap f xs with
      | none => simp [hxs] at h
      | some ys =>
        simp only [hxs, Option.map_some', Option.some.injEq] at h
        simp [← h, ih ys hxs]

/-- Helper: one unfolding step of the fallible loop. -/
theorem optMap_cons {α β : Type} (f : α → Option β) (x : α) (xs : List α) :
    optMap f (x :: xs) =
      (f x).bind (fun y => (optMap f xs).map (fun ys => y :: ys)) := by
  cases h : f x <;> simp [optMap, h]

/-- Helper: the loop body applied to a list of dicts never raises and
maps each dict through the per-record function. -/
theorem optMap_dict_map {β : Type} (g : List (String × PyVal) → β)
    (ms : List (List (String × PyVal))) :
    optMap (fun x => (asDict x).map g) (ms.map PyVal.dict) =
      some (ms.map g) := by
  induction ms with
  | nil => rfl
  | cons m ms ih =>
    rw [List.map_cons, optMap_cons, ih]
    rfl

/-- Helper: reading back the key just written evaluates to the stored
data guarded only by the expiry test `t0 + T < t`. -/
theorem cache_get_set_eval {α : Type} (c : Cache α) (k : String) (v : α)
    (t0 T t : ℚ) :
    cache_get (cache_set c k v t0 T) k t =
      if t0 + T < t then Option.none else some v := by
  simp [cache_get, cache_set, cacheLookup]

/-- C2: evaluating `normalize_live` on the spec's sample record
`[{"match_id":1,"radiant_score":3,"dire_score":5,"game_time":125}]`.
Score, team1 and team2 match the claim, but the status does not: the
bullet in the source literal is double-encoded (bytes C3 A2 E2 82 AC
C2 A2, the three characters U+00E2 U+20AC U+00A2), so the code renders
`"Live â€¢ 2m"` where the claim requires `"Live • 2m"` (U+2022). -/
theorem claim2_sample_eval :
    normalize_live (.list [.dict liveSample]) =
      some [{ id := .int 1, game := "Dota 2", league := .str "",
              series := "", team1 := .str "Radiant", team2 := .str "Dire",
              status := "Live â€¢ 2m", score := "3 - 5",
              begin_at := .none, raw := .dict liveSample }] ∧
    "Live â€¢ 2m" ≠ "Live • 2m" :=
  ⟨rfl, by decide⟩

/-- C4 counterexample: at elapsed time exactly equal to the ttl
(`t - t0 = T = 10`) the claim demands absence, but `cache_get` still
returns the stored value, because the expiry test `v["exp"] <
time.time()` on line 30 is strict. -/
theorem claim4_boundary_counterexample :
    (10 : ℚ) - 0 ≥ 10 ∧
    cache_get (cache_set ([] : Cache Nat) "k" 7 0 10) "k" 10 = some 7 ∧
    some 7 ≠ (Option.none : Option Nat) := by
  refine ⟨by norm_num, ?_, by simp⟩
  rw [cache_get_set_eval]
  norm_num

/-- C4 (amended): after `cache_set k v` at `t0` with ttl `T`, `cache_get
k` at `t` returns `v` whenever `t - t0 ≤ T` and absence whenever
`t - t0 > T`; the boundary `t - t0 = T` yields the value, and a value is
never returned once the entry is expired in the code's sense. -/
theorem claim4_cache_ttl {α : Type} (c : Cache α) (k : String) (v : α)
    (T t0 t : ℚ) :
    (t - t0 ≤ T → cache_get (cache_set c k v t0 T) k t = some v) ∧
    (t - t0 > T → cache_get (cache_set c k v t0 T) k t = Option.none) := by
  rw [cache_get_set_eval]
  constructor <;> intro h
  · rw [if_neg (by linarith)]
  · rw [if_pos (by linarith)]

/-- C4 witness: both branches of the amended statement at concrete
times 3 (inside the window) and 11 (past it). -/
theorem claim4_cache_ttl_witness :
    cache_get (cache_set ([] : Cache Nat) "k" 7 0 10) "k" 3 = some 7 ∧
    cache_get (cache_set ([] : Cache Nat) "k" 7 0 10) "k" 11 = Option.none :=
  ⟨(claim4_cache_ttl [] "k" 7 10 0 3).1 (by norm_num),
   (claim4_cache_ttl [] "k" 7 10 0 11).2 (by norm_num)⟩

/-- C8: a `cache_set` followed by an in-ttl `cache_get` returns exactly
the newly written value, for every prior cache contents under the key:
the write replaces the whole entry, never mixing old and new fields. -/
theorem claim8_set_then_get {α : Type} (c : Cache α) (k : String) (v : α)
    (T t0 t : ℚ) (h : t - t0 < T) :
    cache_get (cache_set c k v t0 T) k t = some v := by
  rw [cache_get_set_eval, if_neg (by linarith)]

/-- C8 witness: overwriting a pre-existing entry under the same key and
reading back inside the ttl yields the new value, not the old one. -/
theorem claim8_set_then_get_witness :
    cache_get
      (cache_set ([("k", ⟨99, (100 : ℚ)⟩)] : Cache Nat) "k" 7 0 10)
      "k" 3 = some 7 :=
  claim8_set_then_get [("k", ⟨99, (100 : ℚ)⟩)] "k" 7 10 0 3 (by norm_num)

/-- C9: in both normalizers the default `0` of `m.get(side_score, 0)`
applies only when the key is absent; a key present with value `None`
makes the f-string render the text `"None"` for that side, not `"0"`. -/
theorem claim9_none_score (m : List (String × PyVal)) :
    (∀ it, normalizeLiveItem m = some it →
      (dictLookup m "radiant_score" = some PyVal.none →
        it.score = "None" ++ " - " ++ pyStr (dictGetD m "dire_score" (.int 0))) ∧
      (dictLookup m "dire_score" = some PyVal.none →
        it.score = pyStr (dictGetD m "radiant_score" (.int 0)) ++ " - " ++ "None")) ∧
    ((dictLookup m "radiant_score" = some PyVal.none →
      (normalizeProItem m).score =
        "None" ++ " - " ++ pyStr (dictGetD m "dire_score" (.int 0))) ∧
     (dictLookup m "dire_score" = some PyVal.none →
      (normalizeProItem m).score =
        pyStr (dictGetD m "radiant_score" (.int 0)) ++ " - " ++ "None")) := by
  refine ⟨?_, ?_, ?_⟩
  · intro it hit
    cases hst : liveStatus (dictGetD m "game_time" (.int 0)) with
    | none => rw [normalizeLiveItem, hst] at hit; cases hit
    | some st =>
      rw [normalizeLiveItem, hst] at hit
      simp only [Option.map_some', Option.some.injEq] at hit
      subst hit
      constructor <;> intro hk <;> simp [scoreOf, dictGetD, hk, pyStr]
  · intro hk
    simp [normalizeProItem, scoreOf, dictGetD, hk, pyStr]
  · intro hk
    simp [normalizeProItem, scoreOf, dictGetD, hk, pyStr]

/-- C9 witness: a record carrying `radiant_score: None` (key present,
value null) renders `"None - 0"` in both normalizers. -/
theorem claim9_none_score_witness :
    ({ id := PyVal.none, game := "Dota 2", league := .str "", series := "",
       team1 := .str "Radiant", team2 := .str "Dire", status := "Live",
       score := "None - 0", begin_at := PyVal.none,
       raw := .dict [("radiant_score", PyVal.none)] } : NormItem).score =
      "None" ++ " - " ++
        pyStr (dictGetD [("radiant_score", PyVal.none)] "dire_score" (.int 0)) ∧
    (normalizeProItem [("radiant_score", PyVal.none)]).score =
      "None" ++ " - " ++
        pyStr (dictGetD [("radiant_score", PyVal.none)] "dire_score" (.int 0)) :=
  ⟨((claim9_none_score [("radiant_score", PyVal.none)]).1 _ rfl).1 rfl,
   (claim9_none_score [("radiant_score", PyVal.none)]).2.1 rfl⟩

/-- C10: in both normalizers the `or`-based fallbacks fire on every
falsy present value, not only on absent keys: a team-name field present
as `""` or `None` yields `"Radiant"` / `"Dire"`, and a league field
present as `""` or `None` yields `""`. -/
theorem claim10_falsy_fallbacks (m : List (String × PyVal)) (v : PyVal)
    (hv : v = .str "" ∨ v = PyVal.none) :
    (∀ it, normalizeLiveItem m = some it →
      (dictLookup m "team_name_radiant" = some v → it.team1 = .str "Radiant") ∧
      (dictLookup m "team_name_dire" = some v → it.team2 = .str "Dire") ∧
      (dictLookup m "league_name" = some v → it.league = .str "")) ∧
    ((dictLookup m "radiant_name" = some v →
        (normalizeProItem m).team1 = .str "Radiant") ∧
     (dictLookup m "dire_name" = some v →
        (normalizeProItem m).team2 = .str "Dire") ∧
     (dictLookup m "league_name" = some v →
        (normalizeProItem m).league = .str "")) := by
  have htr : truthy v = false := by
    cases hv with
    | inl h => subst h; rfl
    | inr h => subst h; rfl
  constructor
  · intro it hit
    cases hst : liveStatus (dictGetD m "game_time" (.int 0)) with
    | none => rw [normalizeLiveItem, hst] at hit; cases hit
    | some st =>
      rw [normalizeLiveItem, hst] at hit
      simp only [Option.map_some', Option.some.injEq] at hit
      subst hit
      refine ⟨fun hk => ?_, fun hk => ?_, fun hk => ?_⟩ <;>
        simp [pyOr, dictGet, dictGetD, hk, htr]
  · refine ⟨fun hk => ?_, fun hk => ?_, fun hk => ?_⟩ <;>
      simp [normalizeProItem, pyOr, dictGet, dictGetD, hk, htr]

/-- C10 witness: a record with all five name fields present but falsy
(empty string) gets every fallback in both normalizers. -/
theorem claim10_falsy_fallbacks_witness :
    (normalizeProItem
        [("team_name_radiant", .str ""), ("team_name_dire", .str ""),
         ("league_name", .str ""), ("radiant_name", .str ""),
         ("dire_name", .str "")]).team1 = .str "Radiant" ∧
    (normalizeProItem
        [("team_name_radiant", .str ""), ("team_name_dire", .str ""),
         ("league_name", .str ""), ("radiant_name", .str ""),
         ("dire_name", .str "")]).team2 = .str "Dire" ∧
    (normalizeProItem
        [("team_name_radiant", .str ""), ("team_name_dire", .str ""),
         ("league_name", .str ""), ("radiant_name", .str ""),
         ("dire_name", .str "")]).league = .str "" :=
  ⟨(claim10_falsy_fallbacks
      [("team_name_radiant", .str ""), ("team_name_dire", .str ""),
       ("league_name", .str ""), ("radiant_name", .str ""),
       ("dire_name", .str "")] (.str "") (Or.inl rfl)).2.1 rfl,
   (claim10_falsy_fallbacks
      [("team_name_radiant", .str ""), ("team_name_dire", .str ""),
       ("league_name", .str ""), ("radiant_name", .str ""),
       ("dire_name", .str "")] (.str "") (Or.inl rfl)).2.2.1 rfl,
   (claim10_falsy_fallbacks
      [("team_name_radiant", .str ""), ("team_name_dire", .str ""),
       ("league_name", .str ""), ("radiant_name", .str ""),
       ("dire_name", .str "")] (.str "") (Or.inl rfl)).2.2.2 rfl⟩

/-- C6: `normalize_pro` on any 25-record input returns exactly the
normalizations of the first 20 records, in input order, each with
status `"Finished"`. -/
theorem claim6_pro_caps_at_20 (ms : List (List (String × PyVal)))
    (h : ms.length = 25) :
    normalize_pro (.list (ms.map PyVal.dict)) =
      some ((ms.take 20).map normalizeProItem) ∧
    ((ms.take 20).map normalizeProItem).length = 20 ∧
    ∀ it ∈ (ms.take 20).map normalizeProItem, it.status = "Finished" := by
  refine ⟨?_, ?_, ?_⟩
  · show optMap (fun x => (asDict x).map normalizeProItem)
      ((ms.map PyVal.dict).take 20) = _
    rw [← List.map_take]
    exact optMap_dict_map _ _
  · simp [h]
  · intro it hit
    simp only [List.mem_map] at hit
    obtain ⟨m, _, rfl⟩ := hit
    rfl

/-- C6 witness: 25 empty records yield the capped, all-Finished items. -/
theorem claim6_pro_caps_at_20_witness :
    (List.replicate 25 ([] : List (String × PyVal))).length = 25 ∧
    normalize_pro
        (.list ((List.replicate 25 ([] : List (String × PyVal))).map
          PyVal.dict)) =
      some (((List.replicate 25 ([] : List (String × PyVal))).take 20).map
        normalizeProItem) ∧
    ((((List.replicate 25 ([] : List (String × PyVal))).take 20)).map
        normalizeProItem).length = 20 :=
  ⟨by simp,
   (claim6_pro_caps_at_20 (List.replicate 25 []) (by simp)).1,
   (claim6_pro_caps_at_20 (List.replicate 25 []) (by simp)).2.1⟩

/-- C3: on a cache miss, any non-200 upstream status makes both handlers
raise HTTP 502 with detail `"OpenDota upstream error <status>"` (the
original status code in decimal), and the cache comes back unchanged:
no entry is written for the request's key. -/
theorem claim3_upstream_error (c : Cache Payload) (now : ℚ)
    (params : List (String × String)) (resp : Resp)
    (hs : resp.status ≠ 200) :
    (cache_get c (liveKey params) now = Option.none →
      dota_live c now params resp =
        (.httpError 502 ("OpenDota upstream error " ++ toString resp.status),
         c)) ∧
    (cache_get c OPENDOTA_PRO now = Option.none →
      dota_recent c now resp =
        (.httpError 502 ("OpenDota upstream error " ++ toString resp.status),
         c)) := by
  constructor <;> intro hcm
  · simp [dota_live, hcm, hs]
  · simp [dota_recent, hcm, hs]

/-- C3 witness: upstream 503 on an empty cache yields the 502 result
with "503" embedded, for both handlers, and leaves the cache empty. -/
theorem claim3_upstream_error_witness :
    dota_live [] 0 [("a", "b")] ⟨503, PyVal.none⟩ =
      (.httpError 502 ("OpenDota upstream error " ++ toString (503 : Nat)),
       []) ∧
    dota_recent [] 0 ⟨503, PyVal.none⟩ =
      (.httpError 502 ("OpenDota upstream error " ++ toString (503 : Nat)),
       []) :=
  ⟨(claim3_upstream_error [] 0 [("a", "b")] ⟨503, PyVal.none⟩ (by decide)).1
      rfl,
   (claim3_upstream_error [] 0 [("a", "b")] ⟨503, PyVal.none⟩ (by decide)).2
      rfl⟩

/-- C5 counterexample: a 200 upstream response whose body parses to the
JSON number 7 crashes both handlers — Python `len(7)` raises TypeError
on line 98/114 before any normalization — so the request fails instead
of succeeding with an empty item list. -/
theorem claim5_nonarray_counterexample :
    (dota_live ([] : Cache Payload) 0 [] ⟨200, .int 7⟩).fst =
      HandlerResult.pyError ∧
    (dota_recent ([] : Cache Payload) 0 ⟨200, .int 7⟩).fst =
      HandlerResult.pyError :=
  ⟨rfl, rfl⟩

/-- C5 (amended): only non-array bodies that still have a Python length
degrade gracefully: a JSON object or string body yields a 200 response
with `count = len(body)` and an empty item list, while number, boolean
and null bodies make `len()` raise and the request fail. -/
theorem claim5_amended (c : Cache Payload) (now : ℚ)
    (params : List (String × String)) (resp : Resp) (n : Nat)
    (hs : resp.status = 200)
    (hbody : (∃ kvs, resp.body = .dict kvs) ∨ (∃ s, resp.body = .str s))
    (hlen : pyLen resp.body = some n) :
    (cache_get c (liveKey params) now = Option.none →
      dota_live c now params resp =
        (.ok false ⟨n, []⟩,
         cache_set c (liveKey params) ⟨n, []⟩ now CACHE_SECONDS)) ∧
    (cache_get c OPENDOTA_PRO now = Option.none →
      dota_recent c now resp =
        (.ok false ⟨n, []⟩, cache_set c OPENDOTA_PRO ⟨n, []⟩ now 30)) := by
  have hnl : normalize_live resp.body = some [] := by
    rcases hbody with ⟨kvs, h⟩ | ⟨s, h⟩ <;> rw [h] <;> rfl
  have hnp : normalize_pro resp.body = some [] := by
    rcases hbody with ⟨kvs, h⟩ | ⟨s, h⟩ <;> rw [h] <;> rfl
  constructor <;> intro hcm
  · simp [dota_live, hcm, hs, hlen, hnl]
  · simp [dota_recent, hcm, hs, hlen, hnp]

/-- C5 witness: a one-key JSON object body gives 200 with one counted
key and zero items, on both handlers. -/
theorem claim5_amended_witness :
    dota_live [] 0 [] ⟨200, .dict [("a", .int 1)]⟩ =
      (.ok false ⟨1, []⟩,
       cache_set [] (liveKey []) ⟨1, []⟩ 0 CACHE_SECONDS) ∧
    dota_recent [] 0 ⟨200, .dict [("a", .int 1)]⟩ =
      (.ok false ⟨1, []⟩, cache_set [] OPENDOTA_PRO ⟨1, []⟩ 0 30) :=
  ⟨(claim5_amended [] 0 [] ⟨200, .dict [("a", .int 1)]⟩ 1 rfl
      (Or.inl ⟨[("a", .int 1)], rfl⟩) rfl).1 rfl,
   (claim5_amended [] 0 [] ⟨200, .dict [("a", .int 1)]⟩ 1 rfl
      (Or.inl ⟨[("a", .int 1)], rfl⟩) rfl).2 rfl⟩

/-- C1 counterexample: 25 parsed records on the recent endpoint yield a
payload whose `count` is 25 while `items` has only 20 elements — line
114 computes `count` from `len(rows)` while `normalize_pro` caps the
items at 20 — so `count` does not equal the item count. -/
theorem claim1_count_counterexample :
    (dota_recent ([] : Cache Payload) 0
        ⟨200, .list (List.replicate 25 (.dict []))⟩).fst =
      HandlerResult.ok false
        ⟨25, List.replicate 20 (normalizeProItem [])⟩ ∧
    (List.replicate 20 (normalizeProItem [])).length ≠ 25 :=
  ⟨rfl, by simp⟩

/-- C1 (amended): in every fresh (non-cached) success of either handler,
`count` is the length of the parsed upstream array; on the live endpoint
that equals the number of items, while on the recent endpoint the items
are additionally capped to the first 20, so `count` can exceed the item
count (and non-array bodies without a Python length fail outright). -/
theorem claim1_amended (c : Cache Payload) (now : ℚ)
    (params : List (String × String)) (resp : Resp) (rows : List PyVal)
    (hbody : resp.body = .list rows) :
    (∀ p c2, dota_live c now params resp = (.ok false p, c2) →
      p.count = rows.length ∧ p.items.length = p.count) ∧
    (∀ p c2, dota_recent c now resp = (.ok false p, c2) →
      p.count = rows.length ∧ p.items.length = min 20 p.count) := by
  constructor <;> intro p c2 h
  · simp only [dota_live, hbody] at h
    cases hcg : cache_get c (liveKey params) now with
    | some q => rw [hcg] at h; simp at h
    | none =>
      rw [hcg] at h
      by_cases hs : resp.status = 200
      · rw [if_neg (by simp [hs])] at h
        simp only [pyLen] at h
        cases hnl : normalize_live (.list rows) with
        | none =>
          rw [hnl] at h
          simp at h
        | some items =>
          rw [hnl] at h
          simp only [Prod.mk.injEq, HandlerResult.ok.injEq] at h
          obtain ⟨⟨-, hp⟩, -⟩ := h
          rw [← hp]
          exact ⟨rfl, optMap_length _ _ _ hnl⟩
      · rw [if_pos (by simp [hs])] at h
        simp at h
  · simp only [dota_recent, hbody] at h
    cases hcg : cache_get c OPENDOTA_PRO now with
    | some q => rw [hcg] at h; simp at h
    | none =>
      rw [hcg] at h
      by_cases hs : resp.status = 200
      · rw [if_neg (by simp [hs])] at h
        simp only [pyLen] at h
        cases hnp : normalize_pro (.list rows) with
        | none =>
          rw [hnp] at h
          simp at h
        | some items =>
          rw [hnp] at h
          simp only [Prod.mk.injEq, HandlerResult.ok.injEq] at h
          obtain ⟨⟨-, hp⟩, -⟩ := h
          rw [← hp]
          refine ⟨rfl, ?_⟩
          have := optMap_length _ _ _ hnp
          simpa using this
      · rw [if_pos (by simp [hs])] at h
        simp at h

/-- C1 witness: the amended relation at the 25-record recent fetch. -/
theorem claim1_amended_witness :
    (⟨25, List.replicate 20 (normalizeProItem [])⟩ : Payload).count =
        (List.replicate 25 (PyVal.dict [])).length ∧
    (⟨25, List.replicate 20 (normalizeProItem [])⟩ : Payload).items.length =
        min 20 (⟨25, List.replicate 20 (normalizeProItem [])⟩ : Payload).count :=
  (claim1_amended [] 0 [] ⟨200, .list (List.replicate 25 (.dict []))⟩
      (List.replicate 25 (.dict [])) rfl).2
    ⟨25, List.replicate 20 (normalizeProItem [])⟩
    (cache_set [] OPENDOTA_PRO
      ⟨25, List.replicate 20 (normalizeProItem [])⟩ 0 30)
    rfl

/-- C7: the live cache key is a pure, deterministic function of the
inbound parameters, and after any fresh fetch a second request with the
same parameters inside the ttl window is answered from cache with the
same payload, whatever the upstream would return the second time. -/
theorem claim7_key_cache_hit (c : Cache Payload) (now now2 : ℚ)
    (params params2 : List (String × String)) (resp resp2 : Resp)
    (p : Payload) (c1 : Cache Payload)
    (hp : params2 = params)
    (h1 : dota_live c now params resp = (.ok false p, c1))
    (ht : now2 - now < CACHE_SECONDS) :
    liveKey params2 = liveKey params ∧
    dota_live c1 now2 params2 resp2 = (.ok true p, c1) := by
  rw [hp]
  refine ⟨rfl, ?_⟩
  simp only [dota_live] at h1
  cases hcg : cache_get c (liveKey params) now with
  | some q => rw [hcg] at h1; simp at h1
  | none =>
    rw [hcg] at h1
    by_cases hs : resp.status = 200
    · rw [if_neg (by simp [hs])] at h1
      cases hlen : pyLen resp.body with
      | none => rw [hlen] at h1; simp at h1
      | some n =>
        rw [hlen] at h1
        cases hnl : normalize_live resp.body with
        | none => rw [hnl] at h1; simp at h1
        | some items =>
          rw [hnl] at h1
          simp only [Prod.mk.injEq, HandlerResult.ok.injEq] at h1
          obtain ⟨⟨-, hpp⟩, hc⟩ := h1
          subst hpp
          subst hc
          simp only [dota_live]
          rw [show cache_get
              (cache_set c (liveKey params)
                (⟨n, items⟩ : Payload) now CACHE_SECONDS)
              (liveKey params) now2 = some ⟨n, items⟩ from by
            rw [cache_get_set_eval, if_neg (by linarith)]]
    · rw [if_pos (by simp [hs])] at h1
      simp at h1

/-- C7 witness: a fresh fetch for `?k=v`, then a second `?k=v` request
five seconds later against an upstream that would now fail, still
answers `fromCache = true` with the first payload. -/
theorem claim7_key_cache_hit_witness :
    liveKey [("k", "v")] = liveKey [("k", "v")] ∧
    dota_live
      (cache_set [] (liveKey [("k", "v")]) ⟨0, []⟩ 0 CACHE_SECONDS) 5
      [("k", "v")] ⟨503, .int 0⟩ =
      (.ok true ⟨0, []⟩,
       cache_set [] (liveKey [("k", "v")]) ⟨0, []⟩ 0 CACHE_SECONDS) :=
  claim7_key_cache_hit [] 0 5 [("k", "v")] [("k", "v")] ⟨200, .list []⟩
    ⟨503, .int 0⟩ ⟨0, []⟩
    (cache_set [] (liveKey [("k", "v")]) ⟨0, []⟩ 0 CACHE_SECONDS)
    rfl rfl (by norm_num [CACHE_SECONDS])
